import Mathlib

/-!
Verification of the BlackBook URL-scraping agent (src/serve_frontend.py).

This file gives a shallow embedding of the data model and the operations of
the pipeline (JSON extraction, event synthesis, market publishing, fetch
retry loop, orchestration) and proves the spec claims about them.

Modelling conventions:
* Python strings are Lean `String` / `List Char`; Python `len`, slicing and
  `str.lower()` act on code points, matched by `String` operations (ASCII
  lowering, which covers every input the code compares against).
* Python floats are modelled as exact rationals; every constant the
  claims mention (0.5, 0.6, 0.7, 0.8, the bounds 0 and 1) is exactly
  representable.
* Python exceptions are modelled with `Except PyExn`; a `try/except` block
  becomes `pyTry`.  Network and HTML-library effects are oracles passed as
  explicit arguments; file writes are returned as a list of file names.
* pydantic model construction (`PredictionEvent(...)`) is modelled by a
  constructor function that fails when a required field is absent,
  mirroring pydantic validation of `class PredictionEvent(BaseModel)`.
-/

/-- Python exceptions, at the granularity the code distinguishes them. -/
inductive PyExn where
  | connectionError
  | timeout
  | httpError (status : Nat)
  | keyError (k : String)
  | typeError
  | valueError
  | attributeError
  | runtimeError
  | validationError
  | otherError
deriving DecidableEq, Repr

/-- `try body except Exception as e: handler e`. -/
def pyTry {α : Type} (body : Except PyExn α) (handler : PyExn → Except PyExn α) :
    Except PyExn α :=
  match body with
  | .ok a => .ok a
  | .error e => handler e

/-- JSON values as returned by `json.loads`. -/
inductive PyJson where
  | null : PyJson
  | bool : Bool → PyJson
  | num : ℚ → PyJson
  | str : String → PyJson
  | arr : List PyJson → PyJson
  | obj : List (String × PyJson) → PyJson

/-- JSON whitespace characters accepted between tokens by `json.loads`. -/
def isJsonWs (c : Char) : Bool :=
  c = ' ' || c = '\t' || c = '\n' || c = '\r'

/-- Drop leading JSON whitespace. -/
def skipWs : List Char → List Char
  | [] => []
  | c :: cs => if isJsonWs c then skipWs cs else c :: cs

/-- Hexadecimal digit value. -/
def hexVal (c : Char) : Option Nat :=
  if '0' ≤ c ∧ c ≤ '9' then some (c.toNat - '0'.toNat)
  else if 'a' ≤ c ∧ c ≤ 'f' then some (c.toNat - 'a'.toNat + 10)
  else if 'A' ≤ c ∧ c ≤ 'F' then some (c.toNat - 'A'.toNat + 10)
  else none

/-- Decode the body of a JSON string literal (after the opening quote),
returning the characters and the rest of the input after the closing quote.
Surrogate escape pairs are combined; a lone surrogate escape is rejected
(Python would keep it as a lone surrogate code unit, which has no `Char`
counterpart; no claim depends on such strings). -/
def parseStrChars : Nat → List Char → Option (List Char × List Char)
  | 0, _ => none
  | _, [] => none
  | fuel + 1, c :: cs =>
    if c = '"' then some ([], cs)
    else if c = '\\' then
      match cs with
      | [] => none
      | e :: cs2 =>
        if e = '"' ∨ e = '\\' ∨ e = '/' then
          (parseStrChars fuel cs2).map (fun p => (e :: p.1, p.2))
        else if e = 'b' then
          (parseStrChars fuel cs2).map (fun p => ('\x08' :: p.1, p.2))
        else if e = 'f' then
          (parseStrChars fuel cs2).map (fun p => ('\x0C' :: p.1, p.2))
        else if e = 'n' then
          (parseStrChars fuel cs2).map (fun p => ('\n' :: p.1, p.2))
        else if e = 'r' then
          (parseStrChars fuel cs2).map (fun p => ('\r' :: p.1, p.2))
        else if e = 't' then
          (parseStrChars fuel cs2).map (fun p => ('\t' :: p.1, p.2))
        else if e = 'u' then
          match cs2 with
          | h1 :: h2 :: h3 :: h4 :: cs3 =>
            match hexVal h1, hexVal h2, hexVal h3, hexVal h4 with
            | some a, some b, some cc, some d =>
              let code := ((a * 16 + b) * 16 + cc) * 16 + d
              if code < 0xD800 ∨ 0xDFFF < code then
                (parseStrChars fuel cs3).map
                  (fun p => (Char.ofNat code :: p.1, p.2))
              else if code ≤ 0xDBFF then
                match cs3 with
                | '\\' :: 'u' :: g1 :: g2 :: g3 :: g4 :: cs4 =>
                  match hexVal g1, hexVal g2, hexVal g3, hexVal g4 with
                  | some a2, some b2, some c2, some d2 =>
                    let lo := ((a2 * 16 + b2) * 16 + c2) * 16 + d2
                    if 0xDC00 ≤ lo ∧ lo ≤ 0xDFFF then
                      let combined :=
                        0x10000 + (code - 0xD800) * 0x400 + (lo - 0xDC00)
                      (parseStrChars fuel cs4).map
                        (fun p => (Char.ofNat combined :: p.1, p.2))
                    else none
                  | _, _, _, _ => none
                | _ => none
              else none
            | _, _, _, _ => none
          | _ => none
        else none
    else if c.toNat < 0x20 then none
    else (parseStrChars fuel cs).map (fun p => (c :: p.1, p.2))

/-- `10 ^ e` as a rational, for an integer exponent. -/
def pow10 : Int → ℚ
  | .ofNat n => (10 : ℚ) ^ n
  | .negSucc n => 1 / (10 : ℚ) ^ (n + 1)

/-- Digits of a decimal run, as a natural number accumulator. -/
def digitsVal (acc : Nat) : List Char → Nat
  | [] => acc
  | c :: cs => digitsVal (acc * 10 + (c.toNat - '0'.toNat)) cs

/-- Parse a JSON number per the RFC 8259 grammar (`json.loads` additionally
accepts `NaN`/`Infinity`, which no claim exercises). Returns the value and
the unconsumed input. -/
def parseNum (cs : List Char) : Option (PyJson × List Char) :=
  let (neg, cs1) :=
    match cs with
    | '-' :: r => (true, r)
    | _ => (false, cs)
  match cs1 with
  | [] => none
  | c :: _ =>
    if ¬ c.isDigit then none
    else
      let (intDigits, cs2) :=
        if c = '0' then (['0'], cs1.drop 1)
        else (cs1.takeWhile Char.isDigit, cs1.dropWhile Char.isDigit)
      let (fracDigits, cs3) :=
        match cs2 with
        | '.' :: r =>
          if (r.takeWhile Char.isDigit).isEmpty then ([], cs2)
          else (r.takeWhile Char.isDigit, r.dropWhile Char.isDigit)
        | _ => ([], cs2)
      let fracOk : Bool :=
        match cs2 with
        | '.' :: r => !(r.takeWhile Char.isDigit).isEmpty
        | _ => true
      let (expOk, expVal, cs4) :=
        match cs3 with
        | 'e' :: r | 'E' :: r =>
          let (esign, r2) :=
            match r with
            | '+' :: rr => ((1 : Int), rr)
            | '-' :: rr => ((-1 : Int), rr)
            | _ => ((1 : Int), r)
          let eds := r2.takeWhile Char.isDigit
          if eds.isEmpty then (false, (0 : Int), cs3)
          else (true, esign * (digitsVal 0 eds : Int), r2.dropWhile Char.isDigit)
        | _ => (true, (0 : Int), cs3)
      if !fracOk || !expOk then none
      else
        let mantissa : ℚ := (digitsVal 0 (intDigits ++ fracDigits) : ℚ)
        let q : ℚ :=
          mantissa * pow10 (expVal - (fracDigits.length : Int))
        some (.num (if neg then -q else q), cs4)

/-- Parse a JSON literal (`null`, `true`, `false`) or a number. -/
def parseAtom (cs : List Char) : Option (PyJson × List Char) :=
  match cs with
  | 'n' :: 'u' :: 'l' :: 'l' :: rest => some (.null, rest)
  | 't' :: 'r' :: 'u' :: 'e' :: rest => some (.bool true, rest)
  | 'f' :: 'a' :: 'l' :: 's' :: 'e' :: rest => some (.bool false, rest)
  | _ => parseNum cs

mutual

/-- Parse one JSON value starting at the current position (leading
whitespace allowed), returning the value and unconsumed input. -/
def parseVal : Nat → List Char → Option (PyJson × List Char)
  | 0, _ => none
  | fuel + 1, cs =>
    match skipWs cs with
    | [] => none
    | c :: rest =>
      if c = '{' then
        Option.map (fun p => (PyJson.obj p.1, p.2))
          (parseObjRest fuel true (skipWs rest))
      else if c = '[' then
        Option.map (fun p => (PyJson.arr p.1, p.2))
          (parseArrRest fuel true (skipWs rest))
      else if c = '"' then
        Option.map (fun p => (PyJson.str (String.mk p.1), p.2))
          (parseStrChars (rest.length + 1) rest)
      else parseAtom (c :: rest)

/-- Parse the members of an array after `[` (whitespace already skipped);
`first` is true when no element has been consumed yet, so `]` closes an
empty array only there. -/
def parseArrRest : Nat → Bool → List Char → Option (List PyJson × List Char)
  | 0, _, _ => none
  | fuel + 1, first, cs =>
    match cs with
    | ']' :: rest => if first then some ([], rest) else none
    | _ =>
      match parseVal fuel cs with
      | none => none
      | some (v, rest) =>
        match skipWs rest with
        | ',' :: rest2 =>
          match parseArrRest fuel false (skipWs rest2) with
          | none => none
          | some (vs, rest3) => some (v :: vs, rest3)
        | ']' :: rest2 => some ([v], rest2)
        | _ => none

/-- Parse the members of an object after `\x7b` (whitespace already
skipped); `first` as in `parseArrRest`. -/
def parseObjRest : Nat → Bool → List Char →
    Option (List (String × PyJson) × List Char)
  | 0, _, _ => none
  | fuel + 1, first, cs =>
    match cs with
    | '}' :: rest => if first then some ([], rest) else none
    | '"' :: rest =>
      match parseStrChars (rest.length + 1) rest with
      | none => none
      | some (key, rest1) =>
        match skipWs rest1 with
        | ':' :: rest2 =>
          match parseVal fuel rest2 with
          | none => none
          | some (v, rest3) =>
            match skipWs rest3 with
            | ',' :: rest4 =>
              match parseObjRest fuel false (skipWs rest4) with
              | none => none
              | some (ms, rest5) => some ((String.mk key, v) :: ms, rest5)
            | '}' :: rest4 => some ([(String.mk key, v)], rest4)
            | _ => none
        | _ => none
    | _ => none

end

/-- Model of Python `json.loads`: parse exactly one JSON document, allowing
surrounding whitespace, rejecting trailing data.  The fuel is generous:
the parser consumes at least one character for every two fuel steps. -/
def jsonLoads (cs : List Char) : Option PyJson :=
  match parseVal (2 * cs.length + 4) cs with
  | some (v, rest) => if skipWs rest = [] then some v else none
  | none => none

/-- Index of the first occurrence of a character, `text.find` in Python
(restricted to the found case / `none` for -1). -/
def firstBraceIdx : List Char → Option Nat
  | [] => none
  | c :: cs => if c = '{' then some 0 else Option.map Nat.succ (firstBraceIdx cs)

/-- Python slice `text[s:e]`. -/
def sliceL (cs : List Char) (s e : Nat) : List Char := (cs.take e).drop s

/-- The loop `for end in range(len(text), start, -1)` of `json_from_text`:
try ends from `e` down to `start + 1`, returning the first parse success. -/
def tryEnds (cs : List Char) (start : Nat) : Nat → Option PyJson
  | 0 => none
  | e + 1 =>
    if start < e + 1 then
      match jsonLoads (sliceL cs start (e + 1)) with
      | some v => some v
      | none => tryEnds cs start e
    else none

/-- The fixed default stub returned by `json_from_text` when nothing
parses (serve_frontend.py line 123). -/
def default_stub : PyJson :=
  .obj [("title", .str "Untitled"), ("description", .str ""),
        ("options", .arr [.str "Yes", .str "No"]),
        ("confidence", .num (1 / 2))]

/-- `json_from_text` (serve_frontend.py lines 110-123): find the first
brace; shrink the candidate span from the end until it parses; on total
failure try the whole text, then fall back to the stub.  Every exception
is caught, so the embedding is a total function. -/
def json_from_text (cs : List Char) : PyJson :=
  match firstBraceIdx cs with
  | none => default_stub
  | some start =>
    match tryEnds cs start cs.length with
    | some v => v
    | none =>
      match jsonLoads cs with
      | some v => v
      | none => default_stub

/-- String-level wrapper used by the synthesizer. -/
def json_from_text_str (s : String) : PyJson := json_from_text s.toList

/-- Python `str.lower()` (ASCII range; every keyword the code compares
against is ASCII).  List-structural so that proofs can evaluate it. -/
def pyLower (s : String) : String := ⟨s.data.map Char.toLower⟩

/-- Python slice `s[:n]` on strings. -/
def pyTake (s : String) (n : Nat) : String := ⟨s.data.take n⟩

/-- Python `str.strip()` with no argument: drop whitespace at both ends. -/
def pyStrip (s : String) : String :=
  ⟨((s.data.dropWhile Char.isWhitespace).reverse.dropWhile
      Char.isWhitespace).reverse⟩

/-- Split a character list at every separator, keeping empty pieces, like
Python `str.split(sep)`. -/
def splitCharsAux (p : Char → Bool) : List Char → List Char → List (List Char)
  | [], acc => [acc.reverse]
  | c :: cs, acc =>
    if p c then acc.reverse :: splitCharsAux p cs []
    else splitCharsAux p cs (c :: acc)

/-- Python `s.split(sep)` for a one-character separator predicate. -/
def pySplit (s : String) (p : Char → Bool) : List String :=
  (splitCharsAux p s.data []).map String.mk

/-- Join strings with a separator, Python `sep.join(xs)`. -/
def joinWith (sep : String) : List String → String
  | [] => ""
  | [x] => x
  | x :: y :: ys => x ++ sep ++ joinWith sep (y :: ys)

/-- Python `needle in haystack` helper: does the list start with `needle`. -/
def startsWithL : List Char → List Char → Bool
  | [], _ => true
  | _ :: _, [] => false
  | a :: as, b :: bs => a = b && startsWithL as bs

/-- Substring containment on character lists. -/
def containsSub (needle : List Char) : List Char → Bool
  | [] => needle.isEmpty
  | c :: rest => startsWithL needle (c :: rest) || containsSub needle rest

/-- Python `needle in hay` for strings. -/
def strContains (hay needle : String) : Bool :=
  containsSub needle.toList hay.toList

/-- Python `str.split()` with no argument: split on whitespace runs,
dropping empty pieces. -/
def pySplitWs (s : String) : List String :=
  (pySplit s Char.isWhitespace).filter (fun t => t ≠ "")

/-- The dict produced by `scrape_content` (serve_frontend.py line 104):
it always carries exactly these four string fields. -/
structure ScrapedDoc where
  title : String
  content : String
  domain : String
  url : String
deriving DecidableEq

/-- The pydantic model `PredictionEvent` (serve_frontend.py lines 45-52).
All seven fields are declared without defaults, hence required. -/
structure PredictionEvent where
  title : String
  description : String
  category : String
  options : List String
  confidence : ℚ
  source_url : String
  resolution_date : String
deriving DecidableEq

/-- pydantic construction of `PredictionEvent`: the field
`resolution_date : str` has no default, so a call that omits it (as the
generative-path constructions at lines 206-213 and 216-223 do) raises a
ValidationError.  Call sites pass `none` exactly where the source omits
the keyword argument. -/
def PredictionEvent.make (title description category : String)
    (options : List String) (confidence : ℚ) (source_url : String)
    (resDate : Option String) : Except PyExn PredictionEvent :=
  match resDate with
  | none => .error .validationError
  | some rd => .ok ⟨title, description, category, options, confidence, source_url, rd⟩

/-- The four template fields computed by the deterministic branch of
`analyze_with_ai` (serve_frontend.py lines 128-175) before the single
construction at line 177. -/
structure DetTemplate where
  title : String
  description : String
  options : List String
  resolution_date : String

/-- Deterministic rule table of `analyze_with_ai` (lines 128-175): ordered
keyword checks over the lowercased title and content, first match wins. -/
def detTemplates (scraped : ScrapedDoc) : DetTemplate :=
  let articleTitle := pyLower scraped.title
  let content := pyLower scraped.content
  if strContains articleTitle "github universe" ||
      strContains content "github universe" then
    { title := "Will GitHub Universe 2025 exceed 4,000 attendees?",
      description := "Based on the article about GitHub Universe October 28-29, 2025 in San Francisco, will the conference exceed its projected 3,700 attendees to reach 4,000+ participants?",
      options := ["Yes, over 4,000 attendees", "No, under 4,000 attendees",
                  "Exactly 3,700 attendees"],
      resolution_date := "2025-10-29T23:59:00-07:00" }
  else if strContains articleTitle "snap" || strContains content "snap benefits" ||
      strContains content "doordash" then
    { title := "Will SNAP benefits mentioned in the article be exhausted by November 1, 2025?",
      description := "Based on the article titled \x27" ++ scraped.title ++
        "\x27, will SNAP benefits run out by Nov 1, 2025?",
      options := ["Yes, benefits exhausted by Nov 1, 2025",
                  "No, benefits remain on Nov 1, 2025"],
      resolution_date := "2025-11-01T23:59:00-05:00" }
  else if strContains articleTitle "trump" || strContains content "pardon" ||
      strContains content "binance" then
    { title := "Will Trump\x27s crypto pardons impact Bitcoin price by December 2025?",
      description := "Based on the article about Trump\x27s crypto policy decisions, will Bitcoin exceed $100,000 by December 2025?",
      options := ["Yes, Bitcoin over $100k", "No, Bitcoin under $100k",
                  "Bitcoin exactly $100k"],
      resolution_date := "2025-12-31T23:59:00-05:00" }
  else if strContains articleTitle "robot" || strContains articleTitle "ai" ||
      strContains content "artificial intelligence" then
    { title := "Will AI robotics funding exceed $50B in 2025?",
      description := "Based on the article about AI and robotics developments, will total AI robotics funding exceed $50 billion in 2025?",
      options := ["Yes, over $50B funding", "No, under $50B funding"],
      resolution_date := "2025-12-31T23:59:00-05:00" }
  else if strContains articleTitle "luxury" || strContains content "theft" ||
      strContains content "grand prix" then
    { title := "Will luxury watch thefts at major events increase by 25% in 2025?",
      description := "Based on the article about luxury watch thefts, will similar crimes at major sporting events increase by 25% or more in 2025?",
      options := ["Yes, 25%+ increase", "No, less than 25% increase"],
      resolution_date := "2025-12-31T23:59:00-05:00" }
  else
    let titleWords := (pySplitWs scraped.title).take 3
    if titleWords.length ≥ 2 then
      { title := "Will the events described in \x27" ++
          joinWith " " titleWords ++ "...\x27 occur as predicted?",
        description := "Based on the article titled \x27" ++ scraped.title ++
          "\x27, will the main predictions or events described come to fruition?",
        options := ["Yes, events will occur", "No, events will not occur",
                    "Partially accurate"],
        resolution_date := "2025-12-31T23:59:00-05:00" }
    else
      { title := "Will this article\x27s predictions prove accurate?",
        description := "Based on the content analysis, will the main claims or predictions in this article prove to be accurate?",
        options := ["Yes, accurate", "No, inaccurate", "Partially accurate"],
        resolution_date := "2025-12-31T23:59:00-05:00" }

/-- Outcome of the generative completion call (lines 186-200): either the
call raises, or a message text is extracted (`none` models a missing or
`None` content; the attribute introspection of lines 193-200 is folded
into the oracle). -/
inductive GenOracle where
  | raises (e : PyExn)
  | returns (text : Option String)

/-- The completion call as an `Except` computation. -/
def genText : GenOracle → Except PyExn (Option String)
  | .raises e => .error e
  | .returns t => .ok t

/-- Python dict lookup on a parsed JSON object; `json.loads` keeps the
last occurrence of a duplicated key, so the lookup prefers the last. -/
def jLookup (k : String) : List (String × PyJson) → Option PyJson
  | [] => none
  | (k2, v) :: rest =>
    match jLookup k rest with
    | some w => some w
    | none => if k2 = k then some v else none

/-- Python `parsed[k]`: KeyError when absent, TypeError when `parsed` is
not a dict. -/
def jGet (v : PyJson) (k : String) : Except PyExn PyJson :=
  match v with
  | .obj ms =>
    match jLookup k ms with
    | some w => .ok w
    | none => .error (.keyError k)
  | _ => .error .typeError

/-- Python `parsed.get(k, dflt)`: AttributeError when `parsed` is not a
dict. -/
def jGetD (v : PyJson) (k : String) (dflt : PyJson) : Except PyExn PyJson :=
  match v with
  | .obj ms => .ok ((jLookup k ms).getD dflt)
  | _ => .error .attributeError

/-- Model of Python `float(str)`: optional sign, decimal digits with an
optional fraction and exponent (`inf`/`nan` spellings omitted; no claim
reaches them). -/
def parseFloatStr (s : String) : Option ℚ :=
  let cs := (pyStrip s).toList
  let (sgn, cs1) :=
    match cs with
    | '+' :: r => ((1 : ℚ), r)
    | '-' :: r => ((-1 : ℚ), r)
    | _ => ((1 : ℚ), cs)
  let ip := cs1.takeWhile Char.isDigit
  let cs2 := cs1.dropWhile Char.isDigit
  let (fp, cs3) :=
    match cs2 with
    | '.' :: r => (r.takeWhile Char.isDigit, r.dropWhile Char.isDigit)
    | _ => ([], cs2)
  if ip.isEmpty && fp.isEmpty then none
  else
    let (eok, ev, cs4) :=
      match cs3 with
      | 'e' :: r | 'E' :: r =>
        let (es, r2) :=
          match r with
          | '+' :: rr => ((1 : Int), rr)
          | '-' :: rr => ((-1 : Int), rr)
          | _ => ((1 : Int), r)
        let eds := r2.takeWhile Char.isDigit
        if eds.isEmpty then (false, (0 : Int), r2)
        else (true, es * (digitsVal 0 eds : Int), r2.dropWhile Char.isDigit)
      | _ => (true, (0 : Int), cs3)
    if !eok || !cs4.isEmpty then none
    else some (sgn * (digitsVal 0 (ip ++ fp) : ℚ) * pow10 (ev - fp.length))

/-- Python `float(x)` on a JSON value: numbers pass through, booleans map
to 1/0, numeric strings are parsed, anything else raises. -/
def pyFloat (v : PyJson) : Except PyExn ℚ :=
  match v with
  | .num q => .ok q
  | .bool b => .ok (if b then 1 else 0)
  | .str s =>
    match parseFloatStr s with
    | some q => .ok q
    | none => .error .valueError
  | _ => .error .typeError

/-- pydantic validation of a `str` field fed a JSON value. -/
def asStr : PyJson → Except PyExn String
  | .str s => .ok s
  | _ => .error .validationError

/-- pydantic validation of each element of a `List[str]` field. -/
def allStr : List PyJson → Except PyExn (List String)
  | [] => .ok []
  | .str s :: rest => (allStr rest).map (fun l => s :: l)
  | _ :: _ => .error .validationError

/-- pydantic validation of a `List[str]` field fed a JSON value. -/
def asStrList : PyJson → Except PyExn (List String)
  | .arr l => allStr l
  | _ => .error .validationError

/-- The `try` body of the generative branch of `analyze_with_ai`
(serve_frontend.py lines 179-213): call the completion service, extract
the text, locate a JSON object, read the keys, validate and construct the
event.  The construction at lines 206-213 passes no `resolution_date`. -/
def generativeBody (scraped : ScrapedDoc) (category : String) (g : GenOracle) :
    Except PyExn PredictionEvent :=
  genText g >>= fun textOpt =>
  (match textOpt with
   | none => Except.error PyExn.runtimeError
   | some t => if t = "" then Except.error PyExn.runtimeError else Except.ok t) >>=
  fun text =>
  let parsed := json_from_text_str text
  jGet parsed "title" >>= fun tv =>
  jGet parsed "description" >>= fun dv =>
  jGetD parsed "category" (PyJson.str category) >>= fun cv =>
  jGet parsed "options" >>= fun ov =>
  (jGetD parsed "confidence" (PyJson.num (4 / 5)) >>= pyFloat) >>= fun conf =>
  asStr tv >>= fun tS =>
  asStr dv >>= fun dS =>
  asStr cv >>= fun cS =>
  asStrList ov >>= fun oL =>
  PredictionEvent.make tS dS cS oL conf scraped.url none

/-- Generative branch of `analyze_with_ai` with its catch-all handler
(lines 214-223): the fallback construction also passes no
`resolution_date`. -/
def analyzeGenerative (scraped : ScrapedDoc) (category : String)
    (g : GenOracle) : Except PyExn PredictionEvent :=
  pyTry (generativeBody scraped category g)
    (fun _ =>
      PredictionEvent.make ("Prediction: " ++ pyTake scraped.title 80 ++ "?")
        (pyTake scraped.content 200) category ["Yes", "No"] (1 / 2)
        scraped.url none)

/-- `analyze_with_ai` (serve_frontend.py lines 126-223).  The Python
guard is `if ai_mock or not openai`; `openaiAvailable` models the module
global.  The deterministic branch constructs the event at line 177 with
`confidence=0.7` and an explicit `resolution_date`. -/
def analyze_with_ai (scraped : ScrapedDoc) (category : String)
    (ai_mock openaiAvailable : Bool) (g : GenOracle) :
    Except PyExn PredictionEvent :=
  if ai_mock || !openaiAvailable then
    let t := detTemplates scraped
    PredictionEvent.make t.title t.description category t.options (7 / 10)
      scraped.url (some t.resolution_date)
  else analyzeGenerative scraped category g

/-- The document of the spec example scenario (spec section 8; also
test_comprehensive.py `test_ai_mock_mode`). -/
def snapDoc : ScrapedDoc :=
  { title := "SNAP Benefits and DoorDash",
    content := "Article about SNAP benefits running out soon",
    domain := "example.com",
    url := "https://example.com/a" }

/-- The document used by the fallback test
(test_comprehensive.py `test_ai_fallback_on_error`). -/
def testDoc : ScrapedDoc :=
  { title := "Test Article",
    content := "Some content",
    domain := "example.com",
    url := "https://example.com" }

/-- Characters list after the first "//" of a URL, if any. -/
def afterDoubleSlash : List Char → Option (List Char)
  | [] => none
  | '/' :: '/' :: rest => some rest
  | _ :: rest => afterDoubleSlash rest

/-- Model of `urllib.parse.urlparse(url).netloc`: the authority component
after "//", up to the next path, query or fragment delimiter; empty when
the URL has no "//". -/
def netloc (url : String) : String :=
  match afterDoubleSlash url.data with
  | none => ""
  | some rest =>
    ⟨rest.takeWhile (fun c => !(c = '/' || c = '?' || c = '#'))⟩

/-- Python truthiness of a JSON value, used by the `or` chain reading the
market identifier (serve_frontend.py line 327). -/
def jTruthy : PyJson → Bool
  | .null => false
  | .bool b => b
  | .num q => if q = 0 then false else true
  | .str s => if s = "" then false else true
  | .arr l => !l.isEmpty
  | .obj l => !l.isEmpty

/-- Display of a JSON value inside an f-string (Python `str`); shallow
rendering, used only in result messages no claim inspects. -/
def jStr : PyJson → String
  | .null => "None"
  | .bool b => if b then "True" else "False"
  | .num q => toString q
  | .str s => s
  | .arr _ => "[...]"
  | .obj _ => "\x7b...\x7d"

/-- The payload `create_market` builds at serve_frontend.py lines 276-290:
source block plus the event envelope. -/
structure MarketPayload where
  domain : String
  url : String
  title : String
  description : String
  category : String
  options : List String
  confidence : ℚ
  source_url : String
  resolution_date : String
deriving DecidableEq

/-- Build the publish payload from an event (lines 269-290). -/
def mkPayload (event : PredictionEvent) : MarketPayload :=
  { domain := netloc event.source_url, url := event.source_url,
    title := event.title, description := event.description,
    category := event.category, options := event.options,
    confidence := event.confidence, source_url := event.source_url,
    resolution_date := event.resolution_date }

/-- Outcome of one HTTP request in the publisher: connection failure,
timeout, another exception, or a response with status, text, and the
result of `.json()` (`none` models a body that fails to parse). -/
inductive ReqOutcome where
  | connError
  | timeoutErr
  | otherError
  | resp (status : Nat) (text : String) (body : Option PyJson)

/-- The two network requests the live publish path can make. -/
structure NetOracle where
  health : ReqOutcome
  post : ReqOutcome

/-- The dict returned by `create_market` (serve_frontend.py lines
292-376), with every key any branch can set. -/
structure MarketResult where
  success : Bool
  market_id : Option PyJson := none
  mode : String
  message : Option String := none
  error : Option String := none
  status_code : Option Nat := none
  response_text : Option String := none
  blockchain_response : Option PyJson := none
  payload : MarketPayload

/-- Read the market identifier defensively (line 327):
a chain of `data.get` calls over the keys "id", "market_id", "marketId"
and "event_id" joined by Python `or`, which skips falsy values. -/
def firstTruthyId (ms : List (String × PyJson)) : Option PyJson :=
  let pick := fun k =>
    match jLookup k ms with
    | some v => if jTruthy v then some v else none
    | none => none
  match pick "id" with
  | some v => some v
  | none =>
    match pick "market_id" with
    | some v => some v
    | none =>
      match pick "marketId" with
      | some v => some v
      | none => pick "event_id"

/-- `create_market` (serve_frontend.py lines 265-376).  The result is
paired with the list of network requests performed; the simulation branch
(line 293) performs none.  `now` models `int(time.time())`; the module
global `ALLOW_CREATE_MARKET` is the `allowCreateMarket` argument. -/
def create_market (event : PredictionEvent) (dry_run : Bool)
    (allowCreateMarket : Bool) (now : Nat) (net : NetOracle) :
    MarketResult × List String :=
  let payload := mkPayload event
  if !allowCreateMarket || dry_run then
    let simId := "SIM-" ++ toString now
    ({ success := true, market_id := some (.str simId), mode := "simulation",
       message := some ("Market simulated with ID: " ++ simId),
       payload := payload }, [])
  else
    match net.health with
    | .connError =>
      ({ success := false, mode := "blockchain",
         error := some "Cannot connect to blockchain", payload := payload },
       ["GET /health"])
    | .timeoutErr =>
      ({ success := false, mode := "blockchain",
         error := some "Blockchain request timed out", payload := payload },
       ["GET /health"])
    | .otherError =>
      ({ success := false, mode := "blockchain",
         error := some "Unexpected blockchain error", payload := payload },
       ["GET /health"])
    | .resp hstatus _ _ =>
      if hstatus ≠ 200 then
        ({ success := false, mode := "blockchain",
           error := some ("Blockchain health check failed: " ++ toString hstatus),
           payload := payload }, ["GET /health"])
      else
        match net.post with
        | .connError =>
          ({ success := false, mode := "blockchain",
             error := some "Cannot connect to blockchain", payload := payload },
           ["GET /health", "POST /ai/events"])
        | .timeoutErr =>
          ({ success := false, mode := "blockchain",
             error := some "Blockchain request timed out", payload := payload },
           ["GET /health", "POST /ai/events"])
        | .otherError =>
          ({ success := false, mode := "blockchain",
             error := some "Unexpected blockchain error", payload := payload },
           ["GET /health", "POST /ai/events"])
        | .resp status text body =>
          if 400 ≤ status then
            ({ success := false, mode := "blockchain",
               error := some ("Blockchain HTTP error " ++ toString status ++ ": " ++ text),
               status_code := some status, response_text := some text,
               payload := payload }, ["GET /health", "POST /ai/events"])
          else
            match body with
            | none =>
              ({ success := false, mode := "blockchain",
                 error := some "Unexpected blockchain error", payload := payload },
               ["GET /health", "POST /ai/events"])
            | some data =>
              match data with
              | .obj ms =>
                match firstTruthyId ms with
                | some mid =>
                  ({ success := true, market_id := some mid, mode := "blockchain",
                     message := some ("Event created successfully on blockchain: " ++ jStr mid),
                     blockchain_response := some data, payload := payload },
                   ["GET /health", "POST /ai/events"])
                | none =>
                  ({ success := false, mode := "blockchain",
                     error := some "Blockchain returned success but no event ID found",
                     blockchain_response := some data, payload := payload },
                   ["GET /health", "POST /ai/events"])
              | _ =>
                ({ success := false, mode := "blockchain",
                   error := some "Unexpected blockchain error", payload := payload },
                 ["GET /health", "POST /ai/events"])

/-- Outcome of one `requests.get` in the fetcher loop. -/
inductive GetOutcome where
  | connError
  | timeoutErr
  | otherError
  | resp (status : Nat) (page : String)

/-- `r.raise_for_status()`: HTTPError on a 4xx/5xx status. -/
def raiseForStatus (status : Nat) : Except PyExn Unit :=
  if 400 ≤ status then .error (.httpError status) else .ok ()

/-- The `try` body of one fetch attempt (serve_frontend.py lines 70-73):
a GET, `raise_for_status`, and the in-loop HTML parse (the `soupLoop`
oracle), yielding the page on success. -/
def attemptBody (g : GetOutcome) (soupLoop : String → Except PyExn Unit) :
    Except PyExn String :=
  match g with
  | .connError => .error .connectionError
  | .timeoutErr => .error .timeout
  | .otherError => .error .otherError
  | .resp status page =>
    raiseForStatus status >>= fun _ =>
    soupLoop page >>= fun _ =>
    Except.ok page

/-- The retry loop of `scrape_content` (lines 68-84): `ConnectionError`
(and `ConnectionResetError`) retries after a 2-second sleep while
attempts remain, any other exception ends the fetch.  Returns the page on
break, plus the number of attempts made and the list of sleeps. -/
def scrapeLoop (get : Nat → GetOutcome)
    (soupLoop : String → Except PyExn Unit) (maxRetries : Nat) :
    Nat → Nat → Option String × Nat × List Nat
  | 0, _ => (none, 0, [])
  | fuel + 1, attempt =>
    match attemptBody (get attempt) soupLoop with
    | .ok page => (some page, 1, [])
    | .error e =>
      if e = .connectionError then
        if attempt < maxRetries - 1 then
          match scrapeLoop get soupLoop maxRetries fuel (attempt + 1) with
          | (r, n, sl) => (r, n + 1, 2 :: sl)
        else (none, 1, [])
      else (none, 1, [])

/-- Lines 101-102 of serve_frontend.py: split into lines, strip each,
drop blank lines, rejoin, truncate to 10000 characters. -/
def normalizeContent (text : String) : String :=
  pyTake (joinWith "\n"
      (((pySplit text (fun c => c = '\n')).map pyStrip).filter
        (fun l => l ≠ "")))
    10000

/-- `scrape_content` (serve_frontend.py lines 55-107) with the default
`max_retries = 3`.  `extract` is the post-loop BeautifulSoup processing
(lines 87-99), yielding the optional title text and the raw page text, or
raising.  The result is an `Except` to make visible that no branch
raises: both fetch failure and parse failure return `none`.  Paired with
the attempt count and sleep trace. -/
def scrape_content (get : Nat → GetOutcome)
    (soupLoop : String → Except PyExn Unit)
    (extract : String → Except PyExn (Option String × String))
    (url : String) :
    Except PyExn (Option ScrapedDoc) × Nat × List Nat :=
  match scrapeLoop get soupLoop 3 3 0 with
  | (none, n, sl) => (.ok none, n, sl)
  | (some page, n, sl) =>
    match extract page with
    | .error _ => (.ok none, n, sl)
    | .ok (titleOpt, text) =>
      let title := titleOpt.getD "Untitled"
      let content := normalizeContent text
      (.ok (some { title := title, content := content,
                   domain := netloc url, url := url }), n, sl)

/-- The run dict of `run_pipeline` (serve_frontend.py lines 379-426). -/
structure PipelineOut where
  run_id : String
  url : String
  steps : List String
  scraped : ScrapedDoc
  event : Option PredictionEvent := none
  market_result : Option MarketResult := none
  market_id : Option PyJson := none

/-- `run_pipeline` (serve_frontend.py lines 379-426).  `scrapeRes` is the
outcome of the `scrape_content` call; `stamp` is the `int(time.time())`
of line 381 and `now` the one used inside `create_market`.  The second
component lists the artifact files written, in order: the scraped
document snapshot is persisted before the content-length check, and the
event snapshot only after analysis succeeds. -/
def run_pipeline (url category : String)
    (create_market_flag ai_mock openaiAvailable allowCreateMarket : Bool)
    (stamp now : Nat) (scrapeRes : Option ScrapedDoc) (g : GenOracle)
    (net : NetOracle) : Option PipelineOut × List String :=
  let run_id := "run_" ++ toString stamp
  match scrapeRes with
  | none => (none, [])
  | some scraped =>
    let files := [run_id ++ "_scraped.json"]
    if scraped.content.length < 100 then (none, files)
    else
      match analyze_with_ai scraped category ai_mock openaiAvailable g with
      | .error _ => (none, files)
      | .ok event =>
        let files := files ++ [run_id ++ "_event.json"]
        let base : PipelineOut :=
          { run_id := run_id, url := url, steps := ["scraped", "analyzed"],
            scraped := scraped, event := some event }
        if create_market_flag then
          let mr := (create_market event (!allowCreateMarket)
              allowCreateMarket now net).1
          if mr.success then
            (some { base with
                    steps := base.steps ++ ["market_created"],
                    market_result := some mr,
                    market_id := mr.market_id }, files)
          else
            (some { base with
                    steps := base.steps ++ ["market_failed"],
                    market_result := some mr }, files)
        else (some base, files)

/-- The response dict of `parse_url` (serve_frontend.py lines 429-477). -/
structure ParseResponse where
  status : String
  event_found : Bool
  event : Option PredictionEvent := none
  message : Option String := none
  source_url : String
  run_id : Option String := none
  market_result : Option MarketResult := none
  market_id : Option PyJson := none

/-- `parse_url` (serve_frontend.py lines 429-477): wrap `run_pipeline`
with the default category "tech"; a run with an event yields
`event_found=true` with the event payload (and the market sub-result when
publishing was requested); otherwise "No event found".  The `except`
branch is unreachable in the model because the embedded `run_pipeline`
never raises. -/
def parse_url (url : String)
    (ai_mock create_market_flag openaiAvailable allowCreateMarket : Bool)
    (stamp now : Nat) (scrapeRes : Option ScrapedDoc) (g : GenOracle)
    (net : NetOracle) : ParseResponse :=
  match (run_pipeline url "tech" create_market_flag ai_mock openaiAvailable
      allowCreateMarket stamp now scrapeRes g net).1 with
  | some out =>
    match out.event with
    | some ev =>
      { status := "success", event_found := true, event := some ev,
        source_url := url, run_id := some out.run_id,
        market_result :=
          if create_market_flag && out.market_result.isSome then
            out.market_result
          else none,
        market_id :=
          if create_market_flag && out.market_result.isSome then
            out.market_id
          else none }
    | none =>
      { status := "success", event_found := false,
        message := some "No event found", source_url := url }
  | none =>
    { status := "success", event_found := false,
      message := some "No event found", source_url := url }

/-- A concrete valid event for the publisher witnesses. -/
def demoEvent : PredictionEvent :=
  { title := "T", description := "D", category := "tech",
    options := ["Yes", "No"], confidence := 1 / 2,
    source_url := "https://example.com/a",
    resolution_date := "2025-12-31T23:59:00-05:00" }

/-- A network oracle on which every request fails to connect. -/
def badNet : NetOracle := { health := .connError, post := .connError }

/-- Fetch oracle answering HTTP 500 on every attempt. -/
def httpErrGet : Nat → GetOutcome := fun _ => .resp 500 "err"

/-- In-loop HTML parse that always succeeds. -/
def okSoup : String → Except PyExn Unit := fun _ => .ok ()

/-- Post-loop extraction that always succeeds. -/
def okExtract : String → Except PyExn (Option String × String) :=
  fun _ => .ok (some "T", "body")

/-- A scraped document whose content is 120 characters long and matches
the SNAP rule, for the publish-failure witness. -/
def longSnapDoc : ScrapedDoc :=
  { title := "SNAP Benefits and DoorDash",
    content := "SNAP benefits may run out soon according to the report, and DoorDash orders could be affected in many states nationwide.",
    domain := "example.com",
    url := "https://example.com/a" }

/-- The event the deterministic synthesizer produces for `longSnapDoc`. -/
def c9Event : PredictionEvent :=
  { title := "Will SNAP benefits mentioned in the article be exhausted by November 1, 2025?",
    description := "Based on the article titled \x27SNAP Benefits and DoorDash\x27, will SNAP benefits run out by Nov 1, 2025?",
    category := "tech",
    options := ["Yes, benefits exhausted by Nov 1, 2025",
                "No, benefits remain on Nov 1, 2025"],
    confidence := 7 / 10,
    source_url := "https://example.com/a",
    resolution_date := "2025-11-01T23:59:00-05:00" }

/-- A scraped document whose content is shorter than 100 characters. -/
def shortDoc : ScrapedDoc :=
  { title := "Tiny", content := "too short", domain := "example.com",
    url := "https://example.com/tiny" }

/-- Fetch oracle whose every attempt fails to connect. -/
def connErrGet : Nat → GetOutcome := fun _ => .connError

lemma firstBraceIdx_eq_none {cs : List Char} (h : '{' ∉ cs) :
    firstBraceIdx cs = none := by
  induction cs with
  | nil => rfl
  | cons c cs ih =>
    simp only [List.mem_cons, not_or] at h
    simp [firstBraceIdx, Ne.symm h.1, ih h.2]

lemma firstBraceIdx_head {cs : List Char} {s : Nat}
    (h : firstBraceIdx cs = some s) :
    ∀ e, s < e → e ≤ cs.length → ∃ r, sliceL cs s e = '{' :: r := by
  induction cs generalizing s with
  | nil => simp [firstBraceIdx] at h
  | cons c cs ih =>
    intro e hse hlen
    obtain ⟨e1, rfl⟩ : ∃ e1, e = e1 + 1 := ⟨e - 1, by omega⟩
    rw [show firstBraceIdx (c :: cs)
        = if c = '{' then some 0 else Option.map Nat.succ (firstBraceIdx cs)
      from rfl] at h
    by_cases hc : c = '{'
    · rw [if_pos hc] at h
      obtain rfl : s = 0 := by simpa using h.symm
      subst hc
      exact ⟨cs.take e1, by simp [sliceL, List.take_succ_cons]⟩
    · rw [if_neg hc] at h
      obtain ⟨s0, hs0, hsucc⟩ := Option.map_eq_some'.mp h
      subst hsucc
      obtain ⟨r, hr⟩ := ih hs0 e1 (by omega) (by simpa using hlen)
      refine ⟨r, ?_⟩
      simpa [sliceL, List.take_succ_cons, List.drop_succ_cons] using hr

lemma parseVal_brace_obj {fuel : Nat} {r rest : List Char} {v : PyJson}
    (h : parseVal fuel ('{' :: r) = some (v, rest)) :
    ∃ m, v = PyJson.obj m := by
  cases fuel with
  | zero => simp [parseVal] at h
  | succ f =>
    have hws : skipWs ('{' :: r) = '{' :: r := by
      simp [skipWs, isJsonWs]
    rw [parseVal, hws] at h
    dsimp only at h
    rw [if_pos rfl] at h
    rcases hpo : parseObjRest f true (skipWs r) with _ | q
    · rw [hpo] at h; simp at h
    · rw [hpo] at h
      simp at h
      exact ⟨q.1, h.1.symm⟩

lemma jsonLoads_brace_obj {r : List Char} {v : PyJson}
    (h : jsonLoads ('{' :: r) = some v) : ∃ m, v = PyJson.obj m := by
  unfold jsonLoads at h
  rcases hp : parseVal (2 * ('{' :: r).length + 4) ('{' :: r) with _ | ⟨w, rest⟩
  · rw [hp] at h; simp at h
  · rw [hp] at h
    dsimp only at h
    by_cases hws : skipWs rest = []
    · rw [if_pos hws] at h
      obtain rfl : w = v := by simpa using h
      exact parseVal_brace_obj hp
    · rw [if_neg hws] at h; simp at h

lemma tryEnds_isSome_of {cs : List Char} {start e' : Nat} {v : PyJson}
    (h1 : start < e') (h3 : jsonLoads (sliceL cs start e') = some v) :
    ∀ e, e' ≤ e → (tryEnds cs start e).isSome := by
  intro e
  induction e with
  | zero => intro h; omega
  | succ e ih =>
    intro he
    rw [tryEnds, if_pos (show start < e + 1 by omega)]
    rcases heq : jsonLoads (sliceL cs start (e + 1)) with _ | w
    · have hne : e' ≠ e + 1 := by
        intro hcon
        rw [hcon, heq] at h3
        exact Option.noConfusion h3
      simpa using ih (by omega)
    · simp

lemma tryEnds_spec {cs : List Char} {start : Nat} :
    ∀ e v, tryEnds cs start e = some v →
      ∃ e1, start < e1 ∧ e1 ≤ e ∧ jsonLoads (sliceL cs start e1) = some v ∧
        ∀ e2, e1 < e2 → e2 ≤ e → jsonLoads (sliceL cs start e2) = none := by
  intro e
  induction e with
  | zero => intro v h; simp [tryEnds] at h
  | succ e ih =>
    intro v h
    rw [tryEnds] at h
    by_cases hs : start < e + 1
    · rw [if_pos hs] at h
      rcases heq : jsonLoads (sliceL cs start (e + 1)) with _ | w
      · rw [heq] at h
        obtain ⟨e1, he1, he2, he3, he4⟩ := ih v h
        exact ⟨e1, he1, by omega, he3, fun e2 hgt hle => by
          rcases Nat.lt_or_ge e2 (e + 1) with hlt | hge
          · exact he4 e2 hgt (by omega)
          · have : e2 = e + 1 := by omega
            subst this; exact heq⟩
      · rw [heq] at h
        obtain rfl : w = v := by simpa using h
        exact ⟨e + 1, hs, le_refl _, heq, fun e2 hgt hle => by omega⟩
    · rw [if_neg hs] at h; simp at h

/-- Claim C1: for every input whose first brace anchors a well-formed JSON
document, `json_from_text` returns the parse of the largest candidate span
anchored at that first brace, and that value is a JSON object; for every
input containing no brace, it returns the fixed default stub
(title "Untitled", options ["Yes", "No"], confidence 0.5).  The embedding
is a total function, reflecting that the code catches every exception. -/
theorem json_from_text_largest_anchored_object (cs : List Char) :
    ('{' ∉ cs → json_from_text cs = default_stub) ∧
    (∀ start e v, firstBraceIdx cs = some start → start < e →
      e ≤ cs.length → jsonLoads (sliceL cs start e) = some v →
      ∃ emax m, start < emax ∧ emax ≤ cs.length ∧
        jsonLoads (sliceL cs start emax) = some (PyJson.obj m) ∧
        (∀ e2, emax < e2 → e2 ≤ cs.length →
          jsonLoads (sliceL cs start e2) = none) ∧
        json_from_text cs = PyJson.obj m) := by
  constructor
  · intro h
    rw [json_from_text, firstBraceIdx_eq_none h]
  · intro start e v hstart hse hlen hparse
    have hsome := tryEnds_isSome_of hse hparse cs.length hlen
    rcases hw : tryEnds cs start cs.length with _ | w
    · rw [hw] at hsome; simp at hsome
    · obtain ⟨e1, he1, he2, he3, he4⟩ := tryEnds_spec cs.length w hw
      obtain ⟨r, hr⟩ := firstBraceIdx_head hstart e1 he1 he2
      obtain ⟨m, rfl⟩ := jsonLoads_brace_obj (hr ▸ he3)
      refine ⟨e1, m, he1, he2, he3, he4, ?_⟩
      simp [json_from_text, hstart, hw]

/-- Witness for C1 at concrete inputs: the text consisting of a single
empty JSON object, and a text with no brace at all. -/
theorem json_from_text_largest_anchored_object_witness :
    (∃ emax m, 0 < emax ∧ emax ≤ 2 ∧
      jsonLoads (sliceL ['{', '}'] 0 emax) = some (PyJson.obj m) ∧
      (∀ e2, emax < e2 → e2 ≤ 2 →
        jsonLoads (sliceL ['{', '}'] 0 e2) = none) ∧
      json_from_text ['{', '}'] = PyJson.obj m) ∧
    json_from_text ['a', 'b'] = default_stub :=
  ⟨(json_from_text_largest_anchored_object ['{', '}']).2 0 2 (PyJson.obj [])
      rfl (by decide) (by decide) rfl,
    (json_from_text_largest_anchored_object ['a', 'b']).1 (by decide)⟩

lemma exceptBindOk {α β : Type} {x : Except PyExn α} {f : α → Except PyExn β}
    {b : β} (h : x >>= f = .ok b) : ∃ a, x = .ok a ∧ f a = .ok b := by
  cases x with
  | error e => exact Except.noConfusion h
  | ok a => exact ⟨a, rfl, h⟩

lemma generativeBody_no_ok (scraped : ScrapedDoc) (category : String)
    (g : GenOracle) (ev : PredictionEvent) :
    generativeBody scraped category g ≠ .ok ev := by
  intro h
  unfold generativeBody at h
  obtain ⟨a1, _, h⟩ := exceptBindOk h
  obtain ⟨a2, _, h⟩ := exceptBindOk h
  obtain ⟨a3, _, h⟩ := exceptBindOk h
  obtain ⟨a4, _, h⟩ := exceptBindOk h
  obtain ⟨a5, _, h⟩ := exceptBindOk h
  obtain ⟨a6, _, h⟩ := exceptBindOk h
  obtain ⟨a7, _, h⟩ := exceptBindOk h
  obtain ⟨a8, _, h⟩ := exceptBindOk h
  obtain ⟨a9, _, h⟩ := exceptBindOk h
  obtain ⟨a10, _, h⟩ := exceptBindOk h
  obtain ⟨a11, _, h⟩ := exceptBindOk h
  exact Except.noConfusion h

lemma analyzeGenerative_error (scraped : ScrapedDoc) (category : String)
    (g : GenOracle) :
    analyzeGenerative scraped category g = .error PyExn.validationError := by
  unfold analyzeGenerative
  cases hb : generativeBody scraped category g with
  | ok ev => exact absurd hb (generativeBody_no_ok _ _ _ ev)
  | error e => simp [pyTry, PredictionEvent.make]

lemma detTemplates_options (scraped : ScrapedDoc) :
    2 ≤ (detTemplates scraped).options.length ∧
      ∀ o ∈ (detTemplates scraped).options, o ≠ "" := by
  unfold detTemplates
  dsimp only
  split_ifs <;> dsimp only <;> decide

/-- Claim C2 (code bug): in deterministic mode, the SNAP example document
with category "tech" yields the claimed title and exactly two options,
but the confidence is 0.7 (line 177 of serve_frontend.py), not 0.6 as the
spec and the repository tests (test_comprehensive.py lines 93, 277, 304)
state. -/
theorem analyze_snap_deterministic_eval :
    ∃ ev, analyze_with_ai snapDoc "tech" true true (GenOracle.returns none)
        = .ok ev ∧
      ev.title
        = "Will SNAP benefits mentioned in the article be exhausted by November 1, 2025?" ∧
      ev.options.length = 2 ∧
      ev.confidence = 7 / 10 ∧ ¬ ev.confidence = 3 / 5 := by
  refine ⟨_, rfl, by decide, by decide, rfl, by norm_num⟩

/-- Claim C3: every `PredictionEvent` the synthesizer actually returns has
confidence in [0, 1].  The deterministic branch fixes 0.7; the generative
branch never returns an event at all, in any of its paths, because both
of its constructions omit the required `resolution_date` field and so
fail pydantic validation (see the C5 theorem). -/
theorem analyze_confidence_in_unit_range {scraped : ScrapedDoc}
    {category : String} {ai_mock openaiAvailable : Bool} {g : GenOracle}
    {ev : PredictionEvent}
    (h : analyze_with_ai scraped category ai_mock openaiAvailable g = .ok ev) :
    0 ≤ ev.confidence ∧ ev.confidence ≤ 1 := by
  unfold analyze_with_ai at h
  by_cases hm : (ai_mock || !openaiAvailable) = true
  · rw [if_pos hm] at h
    simp only [PredictionEvent.make, Except.ok.injEq] at h
    subst h
    exact ⟨by norm_num, by norm_num⟩
  · rw [if_neg hm, analyzeGenerative_error] at h
    exact Except.noConfusion h

/-- Witness for C3: the SNAP document in deterministic mode. -/
theorem analyze_confidence_in_unit_range_witness :
    0 ≤ (7 : ℚ) / 10 ∧ (7 : ℚ) / 10 ≤ 1 :=
  @analyze_confidence_in_unit_range snapDoc "tech" true true
    (GenOracle.returns none) _ rfl

/-- Claim C4: every `PredictionEvent` the synthesizer actually returns has
at least two options, all non-empty.  Every deterministic rule supplies a
literal list of two or three non-empty options; the generative branch
never returns an event (its constructions omit `resolution_date`). -/
theorem analyze_options_at_least_two_nonempty {scraped : ScrapedDoc}
    {category : String} {ai_mock openaiAvailable : Bool} {g : GenOracle}
    {ev : PredictionEvent}
    (h : analyze_with_ai scraped category ai_mock openaiAvailable g = .ok ev) :
    2 ≤ ev.options.length ∧ ∀ o ∈ ev.options, o ≠ "" := by
  unfold analyze_with_ai at h
  by_cases hm : (ai_mock || !openaiAvailable) = true
  · rw [if_pos hm] at h
    simp only [PredictionEvent.make, Except.ok.injEq] at h
    subst h
    exact detTemplates_options scraped
  · rw [if_neg hm, analyzeGenerative_error] at h
    exact Except.noConfusion h

/-- Witness for C4: the SNAP document in deterministic mode. -/
theorem analyze_options_at_least_two_nonempty_witness :
    2 ≤ (detTemplates snapDoc).options.length ∧
      ∀ o ∈ (detTemplates snapDoc).options, o ≠ "" :=
  @analyze_options_at_least_two_nonempty snapDoc "tech" true true
    (GenOracle.returns none) _ rfl

/-- Claim C5 (code bug): the generative path is supposed to convert every
internal failure into a fixed fallback event (options ["Yes","No"],
confidence 0.5), but both generative-path constructions omit the required
`resolution_date` field of the pydantic model, so the path raises a
ValidationError instead of returning — even when the completion succeeds
and returns well-formed JSON with every requested key. -/
theorem analyze_generative_always_raises :
    analyze_with_ai testDoc "tech" false true (GenOracle.raises PyExn.runtimeError)
        = .error PyExn.validationError ∧
    analyze_with_ai testDoc "tech" false true
        (GenOracle.returns (some "\x7b\"title\": \"T\", \"description\": \"D\", \"options\": [\"Yes\", \"No\"], \"confidence\": 0.9\x7d"))
        = .error PyExn.validationError := by
  exact ⟨analyzeGenerative_error testDoc "tech" (GenOracle.raises PyExn.runtimeError),
    analyzeGenerative_error testDoc "tech" (GenOracle.returns (some "\x7b\"title\": \"T\", \"description\": \"D\", \"options\": [\"Yes\", \"No\"], \"confidence\": 0.9\x7d"))⟩

/-- Claim C6: with `dry_run` set or market creation disabled,
`create_market` performs no network request and returns success in
simulation mode with a "SIM-"-prefixed synthetic identifier. -/
theorem create_market_simulation {event : PredictionEvent}
    {dry_run allow : Bool} {now : Nat} {net : NetOracle}
    (h : dry_run = true ∨ allow = false) :
    (create_market event dry_run allow now net).2 = [] ∧
    (create_market event dry_run allow now net).1.success = true ∧
    (create_market event dry_run allow now net).1.mode = "simulation" ∧
    ∃ s, (create_market event dry_run allow now net).1.market_id
        = some (PyJson.str ("SIM-" ++ s)) := by
  have hc : (!allow || dry_run) = true := by
    rcases h with h | h <;> simp [h]
  unfold create_market
  rw [if_pos hc]
  exact ⟨rfl, rfl, rfl, toString now, rfl⟩

/-- Witness for C6 at a concrete event, time and oracle. -/
theorem create_market_simulation_witness :
    (create_market demoEvent true false 1700000000 badNet).2 = [] ∧
    (create_market demoEvent true false 1700000000 badNet).1.success = true ∧
    (create_market demoEvent true false 1700000000 badNet).1.mode
      = "simulation" ∧
    ∃ s, (create_market demoEvent true false 1700000000 badNet).1.market_id
        = some (PyJson.str ("SIM-" ++ s)) :=
  create_market_simulation (Or.inl rfl)

lemma scrapeLoop3 (get : Nat → GetOutcome)
    (soupLoop : String → Except PyExn Unit) :
    scrapeLoop get soupLoop 3 3 0 =
      match attemptBody (get 0) soupLoop with
      | .ok p => (some p, 1, [])
      | .error e0 =>
        if e0 = .connectionError then
          match attemptBody (get 1) soupLoop with
          | .ok p => (some p, 2, [2])
          | .error e1 =>
            if e1 = .connectionError then
              match attemptBody (get 2) soupLoop with
              | .ok p => (some p, 3, [2, 2])
              | .error _ => (none, 3, [2, 2])
            else (none, 2, [2])
        else (none, 1, []) := by
  rcases h0 : attemptBody (get 0) soupLoop with e0 | p0
  · by_cases hc0 : e0 = .connectionError
    · subst hc0
      rcases h1 : attemptBody (get 1) soupLoop with e1 | p1
      · by_cases hc1 : e1 = .connectionError
        · subst hc1
          rcases h2 : attemptBody (get 2) soupLoop with e2 | p2
          · simp [scrapeLoop, h0, h1, h2]
          · simp [scrapeLoop, h0, h1, h2]
        · simp [scrapeLoop, h0, h1, hc1]
      · simp [scrapeLoop, h0, h1]
    · simp [scrapeLoop, h0, hc0]
  · simp [scrapeLoop, h0]

lemma scrape_content_trace (get : Nat → GetOutcome)
    (soupLoop : String → Except PyExn Unit)
    (extract : String → Except PyExn (Option String × String))
    (url : String) :
    (scrape_content get soupLoop extract url).2
      = (scrapeLoop get soupLoop 3 3 0).2 := by
  unfold scrape_content
  rcases hl : scrapeLoop get soupLoop 3 3 0 with ⟨_ | page, n, sl⟩
  · rfl
  · rcases hx : extract page with e | ⟨topt, text⟩ <;> simp [hx]

lemma scrapeLoop3_summary (get : Nat → GetOutcome)
    (soupLoop : String → Except PyExn Unit) :
    1 ≤ (scrapeLoop get soupLoop 3 3 0).2.1 ∧
    (scrapeLoop get soupLoop 3 3 0).2.1 ≤ 3 ∧
    (scrapeLoop get soupLoop 3 3 0).2.2
      = List.replicate ((scrapeLoop get soupLoop 3 3 0).2.1 - 1) 2 ∧
    ∀ i, i + 1 < (scrapeLoop get soupLoop 3 3 0).2.1 →
      attemptBody (get i) soupLoop = .error .connectionError := by
  rw [scrapeLoop3]
  rcases h0 : attemptBody (get 0) soupLoop with e0 | p0
  · by_cases hc0 : e0 = .connectionError
    · subst hc0
      rcases h1 : attemptBody (get 1) soupLoop with e1 | p1
      · by_cases hc1 : e1 = .connectionError
        · subst hc1
          rcases h2 : attemptBody (get 2) soupLoop with e2 | p2
          · show 1 ≤ 3 ∧ 3 ≤ 3 ∧ [2, 2] = List.replicate (3 - 1) 2 ∧
              ∀ i, i + 1 < 3 →
                attemptBody (get i) soupLoop = .error .connectionError
            refine ⟨by norm_num, by norm_num, by decide, ?_⟩
            intro i hi
            rcases (by omega : i = 0 ∨ i = 1) with rfl | rfl
            · exact h0
            · exact h1
          · show 1 ≤ 3 ∧ 3 ≤ 3 ∧ [2, 2] = List.replicate (3 - 1) 2 ∧
              ∀ i, i + 1 < 3 →
                attemptBody (get i) soupLoop = .error .connectionError
            refine ⟨by norm_num, by norm_num, by decide, ?_⟩
            intro i hi
            rcases (by omega : i = 0 ∨ i = 1) with rfl | rfl
            · exact h0
            · exact h1
        · simp only [if_neg hc1]
          show 1 ≤ 2 ∧ 2 ≤ 3 ∧ [2] = List.replicate (2 - 1) 2 ∧
            ∀ i, i + 1 < 2 →
              attemptBody (get i) soupLoop = .error .connectionError
          refine ⟨by norm_num, by norm_num, by decide, ?_⟩
          intro i hi
          obtain rfl : i = 0 := by omega
          exact h0
      · show 1 ≤ 2 ∧ 2 ≤ 3 ∧ [2] = List.replicate (2 - 1) 2 ∧
          ∀ i, i + 1 < 2 →
            attemptBody (get i) soupLoop = .error .connectionError
        refine ⟨by norm_num, by norm_num, by decide, ?_⟩
        intro i hi
        obtain rfl : i = 0 := by omega
        exact h0
    · simp only [if_neg hc0]
      show 1 ≤ 1 ∧ 1 ≤ 3 ∧ ([] : List Nat) = List.replicate (1 - 1) 2 ∧
        ∀ i, i + 1 < 1 →
          attemptBody (get i) soupLoop = .error .connectionError
      exact ⟨by norm_num, by norm_num, by decide,
        fun i hi => absurd hi (by omega)⟩
  · show 1 ≤ 1 ∧ 1 ≤ 3 ∧ ([] : List Nat) = List.replicate (1 - 1) 2 ∧
      ∀ i, i + 1 < 1 →
        attemptBody (get i) soupLoop = .error .connectionError
    exact ⟨by norm_num, by norm_num, by decide,
      fun i hi => absurd hi (by omega)⟩

lemma attemptBody_http {g : GetOutcome} {soupLoop : String → Except PyExn Unit}
    {st : Nat} {page : String} (hg : g = .resp st page) (hs : 400 ≤ st) :
    attemptBody g soupLoop = .error (.httpError st) := by
  subst hg
  unfold attemptBody raiseForStatus
  dsimp only
  rw [if_pos hs]
  rfl

/-- Claim C7: the fetcher makes between 1 and 3 attempts, every retry is
separated by a fixed 2-second sleep, every non-final attempt failed at
the connection level, and a response carrying an HTTP error status on the
first attempt ends the fetch after that single attempt with no
document. -/
theorem scrape_retry_policy (get : Nat → GetOutcome)
    (soupLoop : String → Except PyExn Unit)
    (extract : String → Except PyExn (Option String × String))
    (url : String) :
    1 ≤ (scrape_content get soupLoop extract url).2.1 ∧
    (scrape_content get soupLoop extract url).2.1 ≤ 3 ∧
    (scrape_content get soupLoop extract url).2.2
      = List.replicate ((scrape_content get soupLoop extract url).2.1 - 1) 2 ∧
    (∀ i, i + 1 < (scrape_content get soupLoop extract url).2.1 →
      attemptBody (get i) soupLoop = .error .connectionError) ∧
    (∀ st page, get 0 = .resp st page → 400 ≤ st →
      (scrape_content get soupLoop extract url).2.1 = 1 ∧
      (scrape_content get soupLoop extract url).1 = .ok none) := by
  have hsum := scrapeLoop3_summary get soupLoop
  have htr := scrape_content_trace get soupLoop extract url
  have h21 : (scrape_content get soupLoop extract url).2.1
      = (scrapeLoop get soupLoop 3 3 0).2.1 := by rw [htr]
  have h22 : (scrape_content get soupLoop extract url).2.2
      = (scrapeLoop get soupLoop 3 3 0).2.2 := by rw [htr]
  refine ⟨?_, ?_, ?_, ?_, ?_⟩
  · rw [h21]; exact hsum.1
  · rw [h21]; exact hsum.2.1
  · rw [h22, h21]; exact hsum.2.2.1
  · rw [h21]; exact hsum.2.2.2
  · intro st page hg hs
    have hab := @attemptBody_http (get 0) soupLoop st page hg hs
    have hloop : scrapeLoop get soupLoop 3 3 0 = (none, 1, []) := by
      rw [scrapeLoop3, hab]
      simp
    refine ⟨by rw [h21, hloop], ?_⟩
    unfold scrape_content
    rw [hloop]

/-- Witness for C7: an HTTP 500 on the first attempt ends the fetch after
one attempt with no document. -/
theorem scrape_retry_policy_witness :
    (scrape_content httpErrGet okSoup okExtract "https://example.com").2.1
      = 1 ∧
    (scrape_content httpErrGet okSoup okExtract "https://example.com").1
      = .ok none :=
  (scrape_retry_policy httpErrGet okSoup okExtract
      "https://example.com").2.2.2.2 500 "err" rfl (by norm_num)

/-- Claim C10: `scrape_content` is total over its error cases: it always
returns without raising, and both an exhausted-connection-retries fetch
failure and a post-fetch parse failure (and an HTTP error status) produce
the same `none` result, so callers cannot tell them apart. -/
theorem scrape_content_never_raises (get : Nat → GetOutcome)
    (soupLoop : String → Except PyExn Unit)
    (extract : String → Except PyExn (Option String × String))
    (url : String) :
    (∃ r, (scrape_content get soupLoop extract url).1 = .ok r) ∧
    ((∀ i, attemptBody (get i) soupLoop = .error .connectionError) →
      (scrape_content get soupLoop extract url).1 = .ok none) ∧
    (∀ page e, get 0 = .resp 200 page → soupLoop page = .ok () →
      extract page = .error e →
      (scrape_content get soupLoop extract url).1 = .ok none) := by
  refine ⟨?_, ?_, ?_⟩
  · unfold scrape_content
    rcases hl : scrapeLoop get soupLoop 3 3 0 with ⟨_ | page, n, sl⟩
    · exact ⟨none, rfl⟩
    · rcases hx : extract page with e | ⟨topt, text⟩
      · simp [hx]
      · simp [hx]
  · intro hconn
    have hloop : scrapeLoop get soupLoop 3 3 0 = (none, 3, [2, 2]) := by
      rw [scrapeLoop3, hconn 0, hconn 1, hconn 2]
      simp
    unfold scrape_content
    rw [hloop]
  · intro page e hg hsoup hx
    have hab : attemptBody (get 0) soupLoop = .ok page := by
      rw [hg]
      unfold attemptBody raiseForStatus
      dsimp only
      rw [if_neg (by norm_num : ¬ 400 ≤ 200), hsoup]
      rfl
    have hloop : scrapeLoop get soupLoop 3 3 0 = (some page, 1, []) := by
      rw [scrapeLoop3, hab]
    unfold scrape_content
    rw [hloop]
    simp [hx]

/-- Witness for C10: every attempt a connection error. -/
theorem scrape_content_never_raises_witness :
    (scrape_content connErrGet okSoup okExtract "https://example.com").1
      = .ok none :=
  (scrape_content_never_raises connErrGet okSoup okExtract
      "https://example.com").2.1 (fun _ => rfl)

/-- Claim C8: when the content of the scraped document is shorter than 100
characters, the run returns no event, the only artifact written is the
scraped-document snapshot (no event snapshot exists, since the two file
names differ), and the caller reports no event found. -/
theorem run_pipeline_short_content {url category : String}
    {createFlag ai_mock openaiAvailable allow : Bool} {stamp now : Nat}
    {d : ScrapedDoc} {g : GenOracle} {net : NetOracle}
    (hlen : d.content.length < 100) :
    run_pipeline url category createFlag ai_mock openaiAvailable allow
        stamp now (some d) g net
      = (none, ["run_" ++ toString stamp ++ "_scraped.json"]) ∧
    ("run_" ++ toString stamp ++ "_event.json")
      ∉ ["run_" ++ toString stamp ++ "_scraped.json"] ∧
    (parse_url url ai_mock createFlag openaiAvailable allow stamp now
        (some d) g net).event_found = false := by
  have hgen : ∀ cat, run_pipeline url cat createFlag ai_mock openaiAvailable
      allow stamp now (some d) g net
      = (none, ["run_" ++ toString stamp ++ "_scraped.json"]) := by
    intro cat
    unfold run_pipeline
    simp [hlen]
  refine ⟨hgen category, ?_, ?_⟩
  · simp only [List.mem_singleton]
    intro hEq
    have hlenEq := congrArg String.length hEq
    simp only [String.length_append] at hlenEq
    have e1 : ("_event.json" : String).length = 11 := rfl
    have e2 : ("_scraped.json" : String).length = 13 := rfl
    rw [e1, e2] at hlenEq
    omega
  · unfold parse_url
    rw [hgen "tech"]

/-- Witness for C8 at a concrete short document. -/
theorem run_pipeline_short_content_witness :
    run_pipeline "https://example.com/tiny" "tech" false true true false 7 7
        (some shortDoc) (GenOracle.returns none) badNet
      = (none, ["run_" ++ toString 7 ++ "_scraped.json"]) ∧
    ("run_" ++ toString 7 ++ "_event.json")
      ∉ ["run_" ++ toString 7 ++ "_scraped.json"] ∧
    (parse_url "https://example.com/tiny" true false true false 7 7
        (some shortDoc) (GenOracle.returns none) badNet).event_found
      = false :=
  run_pipeline_short_content (by decide)

/-- Claim C9: a failed publish does not invalidate the run.  When an
event was produced and market creation requested, a publish with
`success=false` still yields a run result carrying the event with the
step "market_failed" recorded, and `parse_url` still reports
`event_found=true` with the event payload. -/
theorem run_pipeline_publish_failure_keeps_event {url : String}
    {ai_mock openaiAvailable allow : Bool} {stamp now : Nat}
    {d : ScrapedDoc} {g : GenOracle} {net : NetOracle} {ev : PredictionEvent}
    (hlen : ¬ d.content.length < 100)
    (hana : analyze_with_ai d "tech" ai_mock openaiAvailable g = .ok ev)
    (hpub : (create_market ev (!allow) allow now net).1.success = false) :
    ∃ out,
      (run_pipeline url "tech" true ai_mock openaiAvailable allow stamp now
          (some d) g net).1 = some out ∧
      out.event = some ev ∧
      "market_failed" ∈ out.steps ∧
      out.market_result = some (create_market ev (!allow) allow now net).1 ∧
      (parse_url url ai_mock true openaiAvailable allow stamp now
          (some d) g net).event_found = true ∧
      (parse_url url ai_mock true openaiAvailable allow stamp now
          (some d) g net).event = some ev := by
  have hrp : run_pipeline url "tech" true ai_mock openaiAvailable allow stamp
      now (some d) g net
      = (some { run_id := "run_" ++ toString stamp, url := url,
                steps := ["scraped", "analyzed", "market_failed"],
                scraped := d, event := some ev,
                market_result :=
                  some (create_market ev (!allow) allow now net).1,
                market_id := none },
         ["run_" ++ toString stamp ++ "_scraped.json",
          "run_" ++ toString stamp ++ "_event.json"]) := by
    unfold run_pipeline
    simp [hlen, hana, hpub]
  refine ⟨_, by rw [hrp], ?_, ?_, ?_, ?_, ?_⟩
  · rfl
  · simp
  · rfl
  · unfold parse_url
    rw [hrp]
  · unfold parse_url
    rw [hrp]

/-- Witness for C9: the long SNAP document analyzed deterministically,
published live against an unreachable endpoint. -/
theorem run_pipeline_publish_failure_keeps_event_witness :
    ∃ out,
      (run_pipeline "https://example.com/a" "tech" true true true true 3 4
          (some longSnapDoc) (GenOracle.returns none) badNet).1 = some out ∧
      out.event = some c9Event ∧
      "market_failed" ∈ out.steps ∧
      out.market_result = some (create_market c9Event (!true) true 4 badNet).1 ∧
      (parse_url "https://example.com/a" true true true true 3 4
          (some longSnapDoc) (GenOracle.returns none) badNet).event_found
        = true ∧
      (parse_url "https://example.com/a" true true true true 3 4
          (some longSnapDoc) (GenOracle.returns none) badNet).event
        = some c9Event :=
  run_pipeline_publish_failure_keeps_event (by decide) rfl rfl
